import Mathlib

/-!
Shallow embedding of the voltage-animation pipeline of the Neuroscience
repository, as implemented by the `BlenderModelViewer` class.  Two source
variants exist and both are modelled where the behaviour differs:

* `src/unnamed/part_001` — the richer variant: `loadVoltageData` with
  material-config handling, positional (index) mesh binding, the
  matplotlib-plasma colour table with linear interpolation, and
  sub-frame interpolated sampling (`updateVoltageFrameInterpolated`).
* `src/src/utilities/BlenderModelViewer.js` — the legacy variant:
  name-heuristic mesh binding (`mapVoltageDataToMeshes`) and a
  piecewise-formula colormap (`voltageToColor`).

JavaScript numbers are modelled as exact rationals (`ℚ`); the special
values produced by division by zero are modelled explicitly by `JSVal`
(the code never enables floating rounding-sensitive behaviour in the
properties below).  JavaScript's `x || y` on numbers (which treats `0`
and `undefined` as falsy) is modelled by `jsOr` / `jsOrOpt`.
-/

namespace BMV

/-- A JavaScript number: either a finite value or one of the IEEE special
values that arise from division by zero (`0/0 = NaN`, `±x/0 = ±Infinity`). -/
inductive JSVal where
  | nan : JSVal
  | posInf : JSVal
  | negInf : JSVal
  | num : ℚ → JSVal
deriving DecidableEq, Repr

/-- JavaScript division `a / b` on finite operands. -/
def jsDiv (a b : ℚ) : JSVal :=
  if b = 0 then
    if a = 0 then JSVal.nan
    else if 0 < a then JSVal.posInf
    else JSVal.negInf
  else JSVal.num (a / b)

/-- `Math.min(a, v)` with a finite first operand: NaN propagates. -/
def jsMin (a : ℚ) (v : JSVal) : JSVal :=
  match v with
  | JSVal.nan => JSVal.nan
  | JSVal.posInf => JSVal.num a
  | JSVal.negInf => JSVal.negInf
  | JSVal.num q => JSVal.num (min a q)

/-- `Math.max(a, v)` with a finite first operand: NaN propagates. -/
def jsMax (a : ℚ) (v : JSVal) : JSVal :=
  match v with
  | JSVal.nan => JSVal.nan
  | JSVal.posInf => JSVal.posInf
  | JSVal.negInf => JSVal.num a
  | JSVal.num q => JSVal.num (max a q)

/-- JavaScript `x || d` on a number `x`: `0` (and `NaN`) are falsy. -/
def jsOr (x d : ℚ) : ℚ := if x = 0 then d else x

/-- JavaScript `x || d` where `x` may be `undefined` (out-of-range array
read or absent field), modelled as `Option ℚ`. -/
def jsOrOpt (x : Option ℚ) (d : ℚ) : ℚ :=
  match x with
  | none => d
  | some v => jsOr v d

/-- JavaScript array read `a[i]` with a (possibly negative) integer index:
`undefined` outside the range, the element inside. -/
def jsIndex (a : List ℚ) (i : ℤ) : Option ℚ :=
  if h : 0 ≤ i ∧ i.toNat < a.length then some (a.get ⟨i.toNat, h.2⟩) else none

/-! ## Data model (wire format of the voltage dataset) -/

/-- `{min, max}` voltage range object of the wire format. -/
structure VRange where
  min : ℚ
  max : ℚ
deriving DecidableEq, Repr

/-- One entry of the `sections` array of the wire format. -/
structure Section where
  id : ℤ
  name : String
  type : String
  voltage_frames : List ℚ
deriving DecidableEq, Repr

/-- The `metadata` object of the wire format.  `global_voltage_range` is
optional (the default-config code reads it with `?.`). -/
structure Metadata where
  frames : ℚ
  duration_ms : ℚ
  global_voltage_range : Option VRange
deriving DecidableEq, Repr

/-- The `material_config` object of the wire format. -/
structure MaterialConfig where
  colormap_name : String
  colormap_steps : ℕ
  cmap_start : ℚ
  cmap_end : ℚ
  emission_strength : ℚ
  voltage_range : VRange
deriving DecidableEq, Repr

/-- A parsed JSON payload as `loadVoltageData` receives it: each top-level
key may be absent. -/
structure RawDataset where
  metadata : Option Metadata
  material_config : Option MaterialConfig
  sections : Option (List Section)
deriving DecidableEq, Repr

/-! ## Viewer state touched by `loadVoltageData` / the animation loop -/

/-- The `this.voltageAnimation` record of the viewer. -/
structure VoltageAnimationState where
  isPlaying : Bool
  currentFrame : ℚ
  totalFrames : ℚ
  speed : ℚ
  meshMap : List (String × Section)
deriving DecidableEq, Repr

/-- The viewer fields read or written by `loadVoltageData`.  The current
model is the list of mesh display names in scene-traversal order. -/
structure ViewerState where
  voltageData : Option RawDataset
  materialConfig : Option MaterialConfig
  currentModel : Option (List String)
  voltageAnimation : VoltageAnimationState
deriving DecidableEq, Repr

/-! ## Positional mesh binding (`mapVoltageDataToMeshes`, part_001) -/

/-- Lexicographic code-point comparison of two character lists, `true`
when the first is ≤ the second. -/
def charListLe : List Char → List Char → Bool
  | [], _ => true
  | _ :: _, [] => false
  | a :: as, b :: bs =>
    if a < b then true
    else if b < a then false
    else charListLe as bs

/-- The comparator of `meshes.sort((a, b) => a.name.localeCompare(b.name))`:
`localeCompare` is modelled as lexicographic code-point order (they agree
on the ASCII names involved). -/
def nameLe (a b : String) : Bool := charListLe a.data b.data

/-- Insertion step of the name sort. -/
def insertSorted (m : String) : List String → List String
  | [] => [m]
  | x :: xs => if nameLe m x then m :: x :: xs else x :: insertSorted m xs

/-- Sort mesh names ascending by display name. -/
def sortMeshNames (l : List String) : List String :=
  l.foldr insertSorted []

/-- `meshes.forEach((mesh, index) => if index < sections.length then bind
mesh to sections[index])`: both lists are consumed positionally, extra
meshes (or extra sections) are dropped with a console warning. -/
def bindByIndex : List String → List Section → List (String × Section)
  | [], _ => []
  | _ :: _, [] => []
  | m :: ms, s :: ss => (m, s) :: bindByIndex ms ss

/-- `mapVoltageDataToMeshes` of `src/unnamed/part_001`: sort mesh names,
then bind by index against `sections` in dataset order. -/
def mapVoltageDataToMeshes (meshNames : List String) (sections : List Section) :
    List (String × Section) :=
  bindByIndex (sortMeshNames meshNames) sections

/-! ## Dataset loading (`loadVoltageData`, part_001) -/

/-- The default material config synthesised when the payload has no
`material_config` key.  The voltage range reads
`metadata.global_voltage_range?.min || -70` (and `|| 20` for max), so an
absent range — or an actual value `0`, which is falsy — yields the
default. -/
def defaultMaterialConfig (md : Metadata) : MaterialConfig :=
  { colormap_name := "plasma"
    colormap_steps := 10
    cmap_start := 0
    cmap_end := 1
    emission_strength := 2
    voltage_range :=
      { min := jsOrOpt (md.global_voltage_range.map VRange.min) (-70)
        max := jsOrOpt (md.global_voltage_range.map VRange.max) 20 } }

/-- `loadVoltageData` of `src/unnamed/part_001` from the point where the
payload has been parsed.  The source assigns `this.voltageData = await
response.json()` first, THEN validates `sections`/`metadata` and throws
`Invalid voltage data format`; on passing validation it installs the
material config, sets `totalFrames`/`currentFrame` and rebinds meshes when
a model is loaded.  The final success logging then reads
`this.voltageData.metadata.global_voltage_range.min` (and `.max`) WITHOUT
optional chaining, so when `global_voltage_range` is absent a `TypeError`
is thrown there — after all the state mutations above have already
happened.  The returned `Bool` is `true` when the call throws (at either
site); the catch block only logs and rethrows. -/
def loadVoltageData (st : ViewerState) (parsed : RawDataset) : ViewerState × Bool :=
  let st1 := { st with voltageData := some parsed }
  match parsed.sections, parsed.metadata with
  | some secs, some md =>
    let mc :=
      match parsed.material_config with
      | some c => c
      | none => defaultMaterialConfig md
    let st2 := { st1 with
      materialConfig := some mc
      voltageAnimation := { st1.voltageAnimation with
        totalFrames := md.frames
        currentFrame := 0 } }
    let st3 :=
      match st2.currentModel with
      | some meshNames =>
        { st2 with voltageAnimation := { st2.voltageAnimation with
            meshMap := mapVoltageDataToMeshes meshNames secs } }
      | none => st2
    match md.global_voltage_range with
    | some _ => (st3, false)
    | none => (st3, true)
  | _, _ => (st1, true)

/-! ## Animation clock (`animate`, both variants) -/

/-- `frameIncrement = delta * framesPerSecond * speed` with
`framesPerSecond = totalFrames / (duration_ms / 1000)`. -/
def frameIncrement (delta totalFrames durationMs speed : ℚ) : ℚ :=
  delta * (totalFrames / (durationMs / 1000)) * speed

/-- The per-tick clock update of `animate()`:
`currentFrame += frameIncrement; if (currentFrame >= totalFrames)
currentFrame = 0;`. -/
def animateStep (frame delta totalFrames durationMs speed : ℚ) : ℚ :=
  let f := frame + frameIncrement delta totalFrames durationMs speed
  if totalFrames ≤ f then 0 else f

/-- Modelled from the spec's words (for comparison with `animateStep`):
"if `frame ≥ frameCount`, wrap: `frame = frame mod frameCount`". The
rational mod is `f - frameCount * ⌊f / frameCount⌋`. -/
def specAnimateStep (frame delta totalFrames durationMs speed : ℚ) : ℚ :=
  let f := frame + frameIncrement delta totalFrames durationMs speed
  if totalFrames ≤ f then f - totalFrames * ⌊f / totalFrames⌋ else f

/-- C1 counterexample.  The claim says an overshooting frame wraps to
`frame mod frameCount`.  With `frameCount = 400`, `durationMs = 1000`,
`speed = 1`, a tick of `deltaSeconds = 1/100` from frame `399` advances to
`403`: the code (`animateStep`) resets to `0`, while the claimed mod-wrap
(`specAnimateStep`) would give `3`. -/
theorem animate_overshoot_resets_not_mod :
    animateStep 399 (1/100) 400 1000 1 = 0 ∧
    specAnimateStep 399 (1/100) 400 1000 1 = 3 ∧
    animateStep 399 (1/100) 400 1000 1 ≠ specAnimateStep 399 (1/100) 400 1000 1 := by
  refine ⟨by norm_num [animateStep, frameIncrement], by norm_num [specAnimateStep, frameIncrement], ?_⟩
  norm_num [animateStep, specAnimateStep, frameIncrement]

/-- C1 amended.  Playing clock ticks advance the frame by
`deltaSeconds * (frameCount / (durationMs/1000)) * speed`; whenever the new
frame reaches or exceeds `frameCount` the code resets it to exactly `0`
(not to `frame mod frameCount`).  In particular with `frameCount = 400` a
frame reaching exactly `400.0` becomes `0.0` (where reset and mod agree). -/
theorem animate_advance_formula_and_reset :
    (∀ frame delta totalFrames durationMs speed : ℚ,
      animateStep frame delta totalFrames durationMs speed =
        (if totalFrames ≤ frame + delta * (totalFrames / (durationMs / 1000)) * speed
         then 0
         else frame + delta * (totalFrames / (durationMs / 1000)) * speed)) ∧
    animateStep 0 1 400 1000 1 = 0 := by
  constructor
  · intro frame delta totalFrames durationMs speed
    rfl
  · norm_num [animateStep, frameIncrement]

/-- C10.  For `totalFrames ≥ 1` and a tick with positive `deltaSeconds`,
`speed` and `durationMs`, starting from a nonnegative frame, the new frame
lies in `[0, totalFrames)`, and any increment reaching or exceeding
`totalFrames` resets the position to exactly `0`. -/
theorem animate_frame_in_range (frame delta totalFrames durationMs speed : ℚ)
    (h1 : 1 ≤ totalFrames) (h0 : 0 ≤ frame) (hd : 0 < delta)
    (hs : 0 < speed) (hm : 0 < durationMs) :
    (0 ≤ animateStep frame delta totalFrames durationMs speed ∧
      animateStep frame delta totalFrames durationMs speed < totalFrames) ∧
    (totalFrames ≤ frame + frameIncrement delta totalFrames durationMs speed →
      animateStep frame delta totalFrames durationMs speed = 0) := by
  have ht : (0:ℚ) < totalFrames := lt_of_lt_of_le one_pos h1
  have hinc : 0 < frameIncrement delta totalFrames durationMs speed := by
    have hdm : 0 < durationMs / 1000 := by positivity
    unfold frameIncrement
    positivity
  constructor
  · simp only [animateStep]
    split_ifs with h
    · exact ⟨le_refl 0, by linarith⟩
    · refine ⟨by linarith, ?_⟩
      linarith [not_le.mp h]
  · intro h
    simp only [animateStep]
    rw [if_pos h]

/-- C10 witness: the end-to-end scenario of the spec (`frameCount = 100`,
`durationMs = 1000`, `speed = 1`, `tick(0.5)`) instantiates the invariant. -/
theorem animate_frame_in_range_witness :
    (0 ≤ animateStep 0 (1/2) 100 1000 1 ∧ animateStep 0 (1/2) 100 1000 1 < 100) ∧
    (100 ≤ 0 + frameIncrement (1/2) 100 1000 1 → animateStep 0 (1/2) 100 1000 1 = 0) :=
  animate_frame_in_range 0 (1/2) 100 1000 1 (by norm_num) (by norm_num)
    (by norm_num) (by norm_num) (by norm_num)


def secSoma : Section := { id := 0, name := "soma", type := "soma", voltage_frames := [1, 2] }

def dsGood : RawDataset :=
  { metadata := some { frames := 10, duration_ms := 1000, global_voltage_range := some ⟨-70, 20⟩ }
    material_config := none
    sections := some [secSoma] }

def dsNoSections : RawDataset :=
  { metadata := some { frames := 10, duration_ms := 1000, global_voltage_range := some ⟨-70, 20⟩ }
    material_config := none
    sections := none }

def stBefore : ViewerState :=
  { voltageData := some dsGood
    materialConfig := some (defaultMaterialConfig { frames := 10, duration_ms := 1000, global_voltage_range := some ⟨-70, 20⟩ })
    currentModel := some ["soma"]
    voltageAnimation :=
      { isPlaying := true, currentFrame := 3, totalFrames := 10, speed := 1
        meshMap := [("soma", secSoma)] } }

/-- C2 counterexample.  Loading a payload whose `sections` key is missing
rejects the load, but the viewer state is NOT left as it was: the source
assigns `this.voltageData = await response.json()` before validating, so
the previously loaded dataset has been replaced by the rejected payload. -/
theorem load_failure_overwrites_dataset :
    (loadVoltageData stBefore dsNoSections).2 = true ∧
    (loadVoltageData stBefore dsNoSections).1 ≠ stBefore := by
  constructor
  · simp [loadVoltageData, dsNoSections]
  · intro h
    have : (loadVoltageData stBefore dsNoSections).1.voltageData = stBefore.voltageData := by rw [h]
    simp [loadVoltageData, dsNoSections, stBefore, dsGood] at this

/-- C2 amended.  On a failed validation the binding (`meshMap`), the
playback clock (`currentFrame`, `totalFrames`, `isPlaying`, `speed`), the
material config and the model are left exactly as they were, but the
stored dataset is overwritten with the rejected payload: the whole result
is `{ st with voltageData := some parsed }` plus the thrown error. -/
theorem load_error_leaves_all_but_dataset (st : ViewerState) (parsed : RawDataset)
    (h : parsed.sections = none ∨ parsed.metadata = none) :
    loadVoltageData st parsed = ({ st with voltageData := some parsed }, true) := by
  rcases h with h | h
  · cases hmd : parsed.metadata <;> simp [loadVoltageData, h, hmd]
  · cases hsec : parsed.sections <;> simp [loadVoltageData, h, hsec]

/-- C2 amended, witness at the concrete before-state and payload. -/
theorem load_error_leaves_all_but_dataset_witness :
    loadVoltageData stBefore dsNoSections =
      ({ stBefore with voltageData := some dsNoSections }, true) :=
  load_error_leaves_all_but_dataset stBefore dsNoSections (Or.inl rfl)

/-- Modelled from the spec's words: the claimed `DataFormatError`
condition — `sections` or `metadata` absent, or `metadata.frameCount < 1`. -/
def specDataFormatError (d : RawDataset) : Prop :=
  d.sections = none ∨ d.metadata = none ∨ ∃ md, d.metadata = some md ∧ md.frames < 1

/-- The `metadata` of the C5 counterexample payload: `frames = 0` but a
`global_voltage_range` IS present, so the success logging does not trip
over the unguarded `.min` read. -/
def mdZeroFrames : Metadata :=
  { frames := 0, duration_ms := 1000, global_voltage_range := some ⟨-70, 20⟩ }

def dsZeroFrames : RawDataset :=
  { metadata := some mdZeroFrames
    material_config := none
    sections := some [secSoma] }

/-- C5 counterexample.  A payload with both keys present, a
`global_voltage_range`, but `metadata.frames = 0` satisfies the claimed
`DataFormatError` condition, yet `loadVoltageData` accepts it: the code
never validates `frameCount`. -/
theorem load_accepts_zero_frames :
    specDataFormatError dsZeroFrames ∧ (loadVoltageData stBefore dsZeroFrames).2 = false := by
  constructor
  · exact Or.inr (Or.inr ⟨_, rfl, by norm_num [mdZeroFrames]⟩)
  · simp [loadVoltageData, dsZeroFrames, mdZeroFrames]

/-- C5 amended.  `loadVoltageData` (after a successful fetch/parse) throws
the `Invalid voltage data format` error exactly when the `sections` key or
the `metadata` key is absent; `metadata.frameCount` is not validated at
all.  Separately, when both keys are present but
`metadata.global_voltage_range` is absent, the success logging reads its
`.min` without optional chaining and the load is rejected by a
`TypeError` — thrown only AFTER the clock state was already updated
(`currentFrame = 0`, `totalFrames = metadata.frames`), unlike the
validation throw. -/
theorem load_error_iff_missing_keys (st : ViewerState) (parsed : RawDataset) :
    ((loadVoltageData st parsed).2 =
      match parsed.sections, parsed.metadata with
      | some _, some md => md.global_voltage_range.isNone
      | _, _ => true) ∧
    (∀ md : Metadata, parsed.sections.isSome → parsed.metadata = some md →
      md.global_voltage_range = none →
      (loadVoltageData st parsed).1.voltageAnimation.currentFrame = 0 ∧
      (loadVoltageData st parsed).1.voltageAnimation.totalFrames = md.frames) := by
  constructor
  · cases hsec : parsed.sections with
    | none => cases hmd : parsed.metadata <;> simp [loadVoltageData, hsec, hmd]
    | some secs =>
      cases hmd : parsed.metadata with
      | none => simp [loadVoltageData, hsec, hmd]
      | some md =>
        cases hr : md.global_voltage_range <;>
          simp [loadVoltageData, hsec, hmd, hr]
  · intro md hs hmd hr
    obtain ⟨secs, hsec⟩ := Option.isSome_iff_exists.mp hs
    cases hcm : st.currentModel <;>
      simp [loadVoltageData, hsec, hmd, hr, hcm]

/-- The payload of the C5 witness: both keys present, no
`global_voltage_range`. -/
def mdNoRange : Metadata :=
  { frames := 10, duration_ms := 1000, global_voltage_range := none }

def dsNoRange : RawDataset :=
  { metadata := some mdNoRange
    material_config := none
    sections := some [secSoma] }

/-- C5 amended, witness: a payload with both keys but no
`global_voltage_range` leaves the load with the clock already reset when
the `TypeError` is thrown. -/
theorem load_error_iff_missing_keys_witness :
    (loadVoltageData stBefore dsNoRange).1.voltageAnimation.currentFrame = 0 ∧
    (loadVoltageData stBefore dsNoRange).1.voltageAnimation.totalFrames = mdNoRange.frames :=
  (load_error_iff_missing_keys stBefore dsNoRange).2 mdNoRange rfl rfl rfl

/-! ## Positional binding: theorems (C3) -/

/-- Insertion step of an id sort on sections (spec side only). -/
def insertSortedById (s : Section) : List Section → List Section
  | [] => [s]
  | x :: xs => if s.id ≤ x.id then s :: x :: xs else x :: insertSortedById s xs

/-- Sort sections ascending by `id` (spec side only). -/
def sortSectionsById (l : List Section) : List Section :=
  l.foldr insertSortedById []

/-- Modelled from the spec's words (for comparison with
`mapVoltageDataToMeshes`): "sort `meshes` by display name and sort
`sections` by `id`; bind by equal rank index". -/
def specPositionalBinding (meshNames : List String) (sections : List Section) :
    List (String × Section) :=
  (sortMeshNames meshNames).zip (sortSectionsById sections)

/-- The index-guarded `forEach` binding is exactly `List.zip`. -/
theorem bindByIndex_eq_zip : ∀ (l : List String) (s : List Section),
    bindByIndex l s = l.zip s
  | [], s => by cases s <;> rfl
  | _ :: _, [] => rfl
  | m :: ms, s :: ss => by
    simp [bindByIndex, bindByIndex_eq_zip ms ss]

/-- A section with the given id and name (empty trace). -/
def secOfId (n : ℤ) (nm : String) : Section :=
  { id := n, name := nm, type := "", voltage_frames := [] }

/-- C3 counterexample.  With equal counts (2 meshes, 2 sections) but the
sections listed in the order id 1, id 0, the code binds mesh "a" to the
FIRST listed section (id 1) — sections are never sorted by id — while the
claimed binding would pair "a" with the section of id 0. -/
theorem mapping_ignores_id_order :
    mapVoltageDataToMeshes ["a", "b"] [secOfId 1 "s1", secOfId 0 "s0"] =
      [("a", secOfId 1 "s1"), ("b", secOfId 0 "s0")] ∧
    specPositionalBinding ["a", "b"] [secOfId 1 "s1", secOfId 0 "s0"] =
      [("a", secOfId 0 "s0"), ("b", secOfId 1 "s1")] ∧
    mapVoltageDataToMeshes ["a", "b"] [secOfId 1 "s1", secOfId 0 "s0"] ≠
      specPositionalBinding ["a", "b"] [secOfId 1 "s1", secOfId 0 "s0"] := by
  refine ⟨by decide, by decide, by decide⟩

/-- C3 amended.  Binding is positional: meshes are sorted by display name
and associated rank-by-rank with `sections` in DATASET order (the code
never sorts sections by id, and applies this strategy regardless of
counts).  The claim's concrete example holds because its section list is
already id-ordered: meshes ["b","a","c"] with sections of ids 0,1,2 bind
"a"→0, "b"→1, "c"→2. -/
theorem mapping_positional_by_dataset_order :
    (∀ (meshNames : List String) (sections : List Section),
      mapVoltageDataToMeshes meshNames sections =
        (sortMeshNames meshNames).zip sections) ∧
    mapVoltageDataToMeshes ["b", "a", "c"]
        [secOfId 0 "sec0", secOfId 1 "sec1", secOfId 2 "sec2"] =
      [("a", secOfId 0 "sec0"), ("b", secOfId 1 "sec1"), ("c", secOfId 2 "sec2")] := by
  constructor
  · intro meshNames sections
    exact bindByIndex_eq_zip _ _
  · decide

/-! ## Voltage normalization: theorems (C4) -/

/-- The normalize-and-clamp steps of `voltageToColor`:
`normalized = (voltage - minVoltage) / (maxVoltage - minVoltage);
clamped = Math.max(0, Math.min(1, normalized))`, with JavaScript division
semantics made explicit. -/
def normalizedClamped (voltage minV maxV : ℚ) : JSVal :=
  jsMax 0 (jsMin 1 (jsDiv (voltage - minV) (maxV - minV)))

/-- C4 counterexample.  With `max == min` (here both `0`) and
`voltage == min`, the normalized value is `0/0 = NaN` — the code has no
degenerate-range guard, so `n` is not defined as `0`. -/
theorem normalized_nan_on_degenerate_range :
    normalizedClamped 0 0 0 = JSVal.nan ∧ JSVal.nan ≠ JSVal.num 0 := by
  constructor
  · norm_num [normalizedClamped, jsDiv, jsMin, jsMax]
  · intro h
    cases h

/-- C4 amended.  When `max == min` the code divides anyway: the clamped
normalized value is `NaN` when `voltage = min` (and then propagates into
the colormap lookup), `1` when `voltage > min` (`+Infinity` clamped), and
`0` when `voltage < min` (`-Infinity` clamped). -/
theorem normalized_degenerate_range_cases (v m : ℚ) :
    normalizedClamped v m m =
      (if v = m then JSVal.nan else if m < v then JSVal.num 1 else JSVal.num 0) := by
  have hd : m - m = 0 := sub_self m
  by_cases h1 : v = m
  · subst h1
    simp [normalizedClamped, jsDiv, jsMin, jsMax, sub_self]
  · by_cases h2 : m < v
    · have hpos : 0 < v - m := sub_pos.mpr h2
      have hne : ¬ v - m = 0 := by
        intro h
        exact h1 (sub_eq_zero.mp h)
      simp [normalizedClamped, jsDiv, jsMin, jsMax, hd, hne, hpos, h1, h2]
    · have hnpos : ¬ 0 < v - m := by
        intro h
        exact h2 (sub_pos.mp h)
      have hne : ¬ v - m = 0 := by
        intro h
        exact h1 (sub_eq_zero.mp h)
      simp [normalizedClamped, jsDiv, jsMin, jsMax, hd, hne, hnpos, h1, h2]

/-! ## Interpolated sampling (`updateVoltageFrameInterpolated`, part_001) -/

/-- JavaScript array read with a possibly fractional numeric index:
`a[2.5]` is `undefined`. -/
def jsIndexQ (a : List ℚ) (i : ℚ) : Option ℚ :=
  if i.den = 1 then jsIndex a i.num else none

/-- The per-section body of `updateVoltageFrameInterpolated`:
`clampedFrame` is clamped into `[0, totalFrames-1]`,
`frameIndex = Math.floor(clampedFrame)`,
`nextFrameIndex = Math.min(frameIndex+1, totalFrames-1)`,
`frameFraction = clampedFrame - frameIndex`; the section is only updated
when `frameIndex < voltage_frames.length`, and then
`currentVoltage = voltage_frames[frameIndex] || 0`,
`nextVoltage = voltage_frames[nextFrameIndex] || currentVoltage`,
result `currentVoltage + (nextVoltage - currentVoltage) * frameFraction`.
`none` models a section that is skipped (mesh left un-updated). -/
def sampleSectionInterpolated (totalFrames frameFloat : ℚ) (vf : List ℚ) : Option ℚ :=
  let clampedFrame := max 0 (min frameFloat (totalFrames - 1))
  let frameIndex : ℤ := ⌊clampedFrame⌋
  let nextFrameIndex : ℚ := min ((frameIndex : ℚ) + 1) (totalFrames - 1)
  let frameFraction : ℚ := clampedFrame - (frameIndex : ℚ)
  if frameIndex < (vf.length : ℤ) then
    let currentVoltage := jsOrOpt (jsIndex vf frameIndex) 0
    let nextVoltage := jsOrOpt (jsIndexQ vf nextFrameIndex) currentVoltage
    some (currentVoltage + (nextVoltage - currentVoltage) * frameFraction)
  else none

/-- Modelled from the spec's words (for comparison with
`sampleSectionInterpolated`): `i0 = floor(frame)`,
`i1 = min(i0+1, frameCount-1)`, `t = frame - i0`, and the per-section value
`voltageFrames[clamp(i0, 0, len-1)] * (1-t) + voltageFrames[clamp(i1, 0, len-1)] * t`
— indices clamped into the trace so the last available sample is reused. -/
def specSampleFrame (frameCount frame : ℚ) (vf : List ℚ) : ℚ :=
  let i0 : ℤ := ⌊frame⌋
  let i1 : ℤ := min (i0 + 1) (⌊frameCount⌋ - 1)
  let t : ℚ := frame - (i0 : ℚ)
  let len : ℤ := vf.length
  let c0 := (jsIndex vf (min (max i0 0) (len - 1))).getD 0
  let c1 := (jsIndex vf (min (max i1 0) (len - 1))).getD 0
  c0 * (1 - t) + c1 * t

/-- A read at or beyond the end of the trace yields `undefined` (`none`). -/
theorem jsIndexQ_none_of_ge (a : List ℚ) (i : ℚ) (h : (a.length : ℚ) ≤ i) :
    jsIndexQ a i = none := by
  unfold jsIndexQ
  split_ifs with hden
  · have hint : ((i.num : ℚ)) = i := (Rat.den_eq_one_iff i).mp hden
    have hlen : (a.length : ℤ) ≤ i.num := by
      have : ((a.length : ℤ) : ℚ) ≤ (i.num : ℚ) := by
        rw [hint]
        exact_mod_cast h
      exact_mod_cast this
    unfold jsIndex
    rw [dif_neg]
    intro hc
    have := hc.2
    have hge : a.length ≤ i.num.toNat := by
      omega
    omega
  · rfl

/-- C6 counterexample.  A section with a single-sample trace (`[5]`) in a
10-frame dataset, sampled at frame 3: the claimed clamp-and-reuse-last
semantics yields `5`, but the code's guard
`frameIndex < voltage_frames.length` fails, so the section is skipped and
no value is produced at all. -/
theorem sample_short_trace_skipped_not_clamped :
    sampleSectionInterpolated 10 3 [5] = none ∧ specSampleFrame 10 3 [5] = 5 := by
  constructor
  · norm_num [sampleSectionInterpolated, jsIndex, jsIndexQ, jsOrOpt, jsOr]
  · norm_num [specSampleFrame, jsIndex, jsIndexQ, jsOrOpt, jsOr]

/-- C6 amended.  Sampling never reads out of bounds or throws (the model
is a total function), but short traces are handled by a guard, not a
clamp: when `floor(clampedFrame)` is at or past the end of the trace the
section is skipped entirely (`none`); when only the next index is out of
range, the current sample is reused (via the `|| currentVoltage`
fallback), so the interpolation degenerates to the current sample. -/
theorem sample_guard_not_clamp (totalFrames frame : ℚ) (vf : List ℚ) :
    ((vf.length : ℤ) ≤ ⌊max 0 (min frame (totalFrames - 1))⌋ →
      sampleSectionInterpolated totalFrames frame vf = none) ∧
    (⌊max 0 (min frame (totalFrames - 1))⌋ < (vf.length : ℤ) →
      (vf.length : ℚ) ≤ min ((⌊max 0 (min frame (totalFrames - 1))⌋ : ℚ) + 1) (totalFrames - 1) →
      sampleSectionInterpolated totalFrames frame vf =
        some (jsOrOpt (jsIndex vf ⌊max 0 (min frame (totalFrames - 1))⌋) 0)) := by
  constructor
  · intro h
    unfold sampleSectionInterpolated
    rw [if_neg]
    omega
  · intro hlt hnext
    unfold sampleSectionInterpolated
    rw [if_pos hlt]
    have hnone : jsIndexQ vf (min ((⌊max 0 (min frame (totalFrames - 1))⌋ : ℚ) + 1) (totalFrames - 1)) = none :=
      jsIndexQ_none_of_ge _ _ hnext
    rw [hnone]
    simp only [jsOrOpt]
    congr 1
    ring

/-- C6 amended, witness: with trace `[5]` and frame 3 the section is
skipped; with trace `[7, 9]` and frame `3/2` the next index (2) is out of
range, so the current sample `voltage_frames[1] = 9` is reused. -/
theorem sample_guard_not_clamp_witness :
    sampleSectionInterpolated 10 3 [5] = none ∧
    sampleSectionInterpolated 10 (3/2) [7, 9] =
      some (jsOrOpt (jsIndex [7, 9] ⌊max 0 (min ((3:ℚ)/2) (10 - 1))⌋) 0) := by
  constructor
  · exact (sample_guard_not_clamp 10 3 [5]).1 (by norm_num)
  · exact (sample_guard_not_clamp 10 (3/2) [7, 9]).2 (by norm_num) (by norm_num)

/-! ## Name-based mesh matching (`mapVoltageDataToMeshes`, legacy variant) -/

/-- `needle` is a leading block of the haystack (helper for `includes`). -/
def hasPfx : List Char → List Char → Bool
  | [], _ => true
  | _ :: _, [] => false
  | a :: as, b :: bs => a == b && hasPfx as bs

/-- `needle` occurs contiguously somewhere in the haystack. -/
def hasSub : List Char → List Char → Bool
  | needle, [] => needle.isEmpty
  | needle, b :: bs => hasPfx needle (b :: bs) || hasSub needle bs

/-- JavaScript `hay.includes(needle)`. -/
def strIncludes (hay needle : String) : Bool := hasSub needle.data hay.data

/-- The digits matched by the regex `/\d+$/` (trailing digit run). -/
def trailingDigits (s : String) : List Char :=
  ((s.data.reverse).takeWhile Char.isDigit).reverse

/-- `parseInt` on a digit string. -/
def digitsToNat (ds : List Char) : ℕ :=
  ds.foldl (fun acc c => acc * 10 + (c.toNat - 48)) 0

/-- `parseInt(meshName.match(/\d+$/)?.[0])`: `none` models the `NaN`
(no trailing digits) case that `isNaN` filters out. -/
def numericSuffix (s : String) : Option ℕ :=
  let ds := trailingDigits s
  if ds.isEmpty then none else some (digitsToNat ds)

/-- The predicate inside `this.voltageData.sections.find(...)` of the
legacy `mapVoltageDataToMeshes`: exact name equality, OR substring
containment in either direction, OR trailing-number-equals-id — all three
tried against THIS section before moving to the next section. -/
def sectionMatches (meshName : String) (s : Section) : Bool :=
  (s.name == meshName) ||
  (strIncludes meshName s.name || strIncludes s.name meshName) ||
  (match numericSuffix meshName with
   | some n => ((n : ℤ) == s.id)
   | none => false)

/-- `sections.find(section => ...)`: the first section in dataset order
satisfying any criterion. -/
def findSectionForMesh (meshName : String) (sections : List Section) : Option Section :=
  sections.find? (sectionMatches meshName)

/-- The legacy `mapVoltageDataToMeshes`
(`src/src/utilities/BlenderModelViewer.js`): each traversed mesh is bound
to the first matching section; unmatched meshes are skipped with a
warning. -/
def mapVoltageDataToMeshesLegacy (meshNames : List String) (sections : List Section) :
    List (String × Section) :=
  meshNames.filterMap (fun m => (findSectionForMesh m sections).map (fun s => (m, s)))

/-- Modelled from the spec's words (for comparison with
`findSectionForMesh`): criteria tried in priority order across the whole
section list — all sections by exact equality first, then all by
substring containment, then all by numeric suffix. -/
def specFindSection (meshName : String) (sections : List Section) : Option Section :=
  match sections.find? (fun s => s.name == meshName) with
  | some s => some s
  | none =>
    match sections.find? (fun s => strIncludes meshName s.name || strIncludes s.name meshName) with
    | some s => some s
    | none =>
      sections.find? (fun s =>
        match numericSuffix meshName with
        | some n => ((n : ℤ) == s.id)
        | none => false)

/-- C8 counterexample.  Mesh "axon" against sections
`[{id:5, name:"axon_long"}, {id:7, name:"axon"}]`: the claimed priority
order would bind the exact match (id 7), but the code scans sections in
order trying all criteria per section, so the earlier substring match
(id 5) wins. -/
theorem substring_beats_exact_in_section_order :
    findSectionForMesh "axon" [secOfId 5 "axon_long", secOfId 7 "axon"] =
      some (secOfId 5 "axon_long") ∧
    specFindSection "axon" [secOfId 5 "axon_long", secOfId 7 "axon"] =
      some (secOfId 7 "axon") ∧
    findSectionForMesh "axon" [secOfId 5 "axon_long", secOfId 7 "axon"] ≠
      specFindSection "axon" [secOfId 5 "axon_long", secOfId 7 "axon"] := by
  refine ⟨by decide, by decide, by decide⟩

/-- C8 amended.  Name matching scans sections in dataset order and binds a
mesh to the FIRST section satisfying ANY of exact equality, substring
containment (either direction) or numeric-suffix-equals-id (no priority
across criteria; every returned section does match one of the criteria).
The claim's concrete example still holds: mesh "axon_01" binds to section
`{id:1, name:"axon"}` by substring containment even though counts differ
(1 mesh, 3 sections). -/
theorem name_matching_first_section_wins :
    (∀ (m : String) (ss : List Section) (s : Section),
      findSectionForMesh m ss = some s → s ∈ ss ∧ sectionMatches m s = true) ∧
    mapVoltageDataToMeshesLegacy ["axon_01"]
        [secOfId 0 "soma", secOfId 1 "axon", secOfId 2 "dend"] =
      [("axon_01", secOfId 1 "axon")] := by
  constructor
  · intro m ss s h
    exact ⟨List.mem_of_find?_eq_some h, List.find?_some h⟩
  · decide

/-- C8 amended, witness: the section bound to "axon_01" is a member of the
section list and satisfies the match predicate. -/
theorem name_matching_first_section_wins_witness :
    secOfId 1 "axon" ∈ [secOfId 0 "soma", secOfId 1 "axon", secOfId 2 "dend"] ∧
    sectionMatches "axon_01" (secOfId 1 "axon") = true :=
  name_matching_first_section_wins.1 "axon_01"
    [secOfId 0 "soma", secOfId 1 "axon", secOfId 2 "dend"] (secOfId 1 "axon") (by decide)

/-! ## Per-tick material application and sink failures (part_001) -/

/-- One entry of the `meshMap.forEach` body of
`updateVoltageFrameInterpolated`: a section whose sample is `none` (short
trace) is skipped; otherwise `applyVoltageToMesh` runs and — there being
no try/catch anywhere in the loop — a throw (`sinkThrows m`) propagates
out of `forEach`, discarding the work of all later entries (`r`). -/
def tickApplyStep (sinkThrows : String → Bool) (m : String) (sampled : Option ℚ)
    (r : List String × Bool) : List String × Bool :=
  match sampled with
  | none => r
  | some _ => if sinkThrows m then ([], true) else (m :: r.1, r.2)

/-- The whole `meshMap.forEach` loop: returns the meshes whose material
was actually updated this tick (in order) and whether the loop aborted
with an uncaught exception. -/
def tickApplyLoop (sinkThrows : String → Bool) (totalFrames frame : ℚ) :
    List (String × Section) → List String × Bool
  | [] => ([], false)
  | (m, s) :: rest =>
    tickApplyStep sinkThrows m (sampleSectionInterpolated totalFrames frame s.voltage_frames)
      (tickApplyLoop sinkThrows totalFrames frame rest)

/-- The loop applies exactly the longest non-throwing prefix of the
guard-passing entries, and an exception escapes iff some guard-passing
entry throws. -/
theorem tickApplyLoop_eq (sinkThrows : String → Bool) (totalFrames frame : ℚ) :
    ∀ bindings : List (String × Section),
      tickApplyLoop sinkThrows totalFrames frame bindings =
        (((bindings.filter
              (fun p => (sampleSectionInterpolated totalFrames frame p.2.voltage_frames).isSome)).takeWhile
            (fun p => !sinkThrows p.1)).map Prod.fst,
         (bindings.filter
              (fun p => (sampleSectionInterpolated totalFrames frame p.2.voltage_frames).isSome)).any
            (fun p => sinkThrows p.1)) := by
  intro bindings
  induction bindings with
  | nil => rfl
  | cons p rest ih =>
    obtain ⟨m, s⟩ := p
    simp only [tickApplyLoop, ih]
    cases h : sampleSectionInterpolated totalFrames frame s.voltage_frames with
    | none =>
      simp [tickApplyStep, List.filter_cons, h]
    | some v =>
      by_cases hm : sinkThrows m
      · simp [tickApplyStep, List.filter_cons, h, hm]
      · simp [tickApplyStep, List.filter_cons, h, hm]

/-- The voltage part of one `animate()` tick while playing:
`requestAnimationFrame` is called first (the next tick is always
scheduled) and `currentFrame` is advanced BEFORE
`updateVoltageFrameInterpolated` runs its apply loop. -/
def animateVoltageTick (sinkThrows : String → Bool) (st : VoltageAnimationState)
    (delta durationMs : ℚ) : VoltageAnimationState × (List String × Bool) :=
  let newFrame := animateStep st.currentFrame delta st.totalFrames durationMs st.speed
  let r := tickApplyLoop sinkThrows st.totalFrames newFrame st.meshMap
  ({ st with currentFrame := newFrame }, r)

/-- A two-frame section used in the C9 counterexample. -/
def secTwo : Section := { id := 0, name := "s", type := "", voltage_frames := [1, 2] }

/-- C9 counterexample.  Two bound meshes, the first of which throws in the
material sink.  There is no per-mesh try/catch, so the tick applies NO
meshes and aborts with the exception, while the claimed behaviour (catch
and log per mesh, keep going) would still process `"m1"`. -/
theorem sink_throw_aborts_remaining_meshes :
    tickApplyLoop (fun m => m == "m0") 2 0 [("m0", secTwo), ("m1", secTwo)] = ([], true) ∧
    (([("m0", secTwo), ("m1", secTwo)].filter
        (fun p => !(p.1 == "m0"))).map Prod.fst) = ["m1"] ∧
    ([] : List String) ≠ ["m1"] := by
  refine ⟨?_, by decide, by decide⟩
  have h1 : sampleSectionInterpolated 2 0 secTwo.voltage_frames = some 1 := by
    norm_num [sampleSectionInterpolated, jsIndex, jsIndexQ, jsOrOpt, jsOr, secTwo]
  rw [tickApplyLoop_eq]
  simp [h1]

/-- C9 amended.  A sink call that throws is NOT caught per mesh: it aborts
the remaining bound meshes of that tick — exactly the guard-passing
non-throwing prefix is applied, and an exception escapes iff some
guard-passing mesh throws.  The clock itself keeps running: the next tick
was already scheduled and `currentFrame` had been advanced before the
apply loop, independent of any sink failure. -/
theorem tick_apply_prefix_semantics (sinkThrows : String → Bool) (totalFrames frame : ℚ)
    (st : VoltageAnimationState) (delta durationMs : ℚ) :
    (∀ bindings : List (String × Section),
      tickApplyLoop sinkThrows totalFrames frame bindings =
        (((bindings.filter
              (fun p => (sampleSectionInterpolated totalFrames frame p.2.voltage_frames).isSome)).takeWhile
            (fun p => !sinkThrows p.1)).map Prod.fst,
         (bindings.filter
              (fun p => (sampleSectionInterpolated totalFrames frame p.2.voltage_frames).isSome)).any
            (fun p => sinkThrows p.1))) ∧
    (animateVoltageTick sinkThrows st delta durationMs).1.currentFrame =
      animateStep st.currentFrame delta st.totalFrames durationMs st.speed :=
  ⟨tickApplyLoop_eq sinkThrows totalFrames frame, rfl⟩


/-! ## The plasma colormap (`voltageToColor`, part_001) -/

/-- The 101-entry matplotlib plasma table hard-coded in `voltageToColor`. -/
def plasmaColors : List (ℚ × ℚ × ℚ) := [
  (0.050383, 0.029803, 0.527975),
  (0.063536, 0.028426, 0.533124),
  (0.075353, 0.027206, 0.538007),
  (0.086222, 0.026125, 0.542658),
  (0.096379, 0.025165, 0.547103),
  (0.105980, 0.024309, 0.551368),
  (0.115124, 0.023556, 0.555468),
  (0.123903, 0.022878, 0.559423),
  (0.132381, 0.022258, 0.563250),
  (0.140603, 0.021687, 0.566959),
  (0.148607, 0.021154, 0.570562),
  (0.156421, 0.020651, 0.574065),
  (0.164070, 0.020171, 0.577478),
  (0.171574, 0.019706, 0.580806),
  (0.178950, 0.019252, 0.584054),
  (0.186213, 0.018803, 0.587228),
  (0.193374, 0.018354, 0.590330),
  (0.200445, 0.017902, 0.593364),
  (0.207435, 0.017442, 0.596333),
  (0.214350, 0.016973, 0.599239),
  (0.221197, 0.016497, 0.602083),
  (0.227983, 0.016007, 0.604867),
  (0.234715, 0.015502, 0.607592),
  (0.241396, 0.014979, 0.610259),
  (0.248032, 0.014439, 0.612868),
  (0.254627, 0.013882, 0.615419),
  (0.261183, 0.013308, 0.617911),
  (0.267703, 0.012716, 0.620346),
  (0.274191, 0.012109, 0.622722),
  (0.280648, 0.011488, 0.625038),
  (0.287076, 0.010855, 0.627295),
  (0.293478, 0.010213, 0.629490),
  (0.299855, 0.009561, 0.631624),
  (0.306210, 0.008902, 0.633694),
  (0.312543, 0.008239, 0.635700),
  (0.318856, 0.007576, 0.637640),
  (0.325150, 0.006915, 0.639512),
  (0.331426, 0.006261, 0.641316),
  (0.337683, 0.005618, 0.643049),
  (0.343925, 0.004991, 0.644710),
  (0.350150, 0.004382, 0.646298),
  (0.356359, 0.003798, 0.647810),
  (0.362553, 0.003242, 0.649245),
  (0.368733, 0.002722, 0.650601),
  (0.374897, 0.002245, 0.651876),
  (0.381047, 0.001814, 0.653068),
  (0.387183, 0.001434, 0.654177),
  (0.393304, 0.001114, 0.655199),
  (0.399411, 0.000859, 0.656133),
  (0.405503, 0.000678, 0.656977),
  (0.411580, 0.000577, 0.657730),
  (0.417642, 0.000564, 0.658390),
  (0.423689, 0.000646, 0.658956),
  (0.429719, 0.000831, 0.659425),
  (0.435734, 0.001127, 0.659797),
  (0.441732, 0.001540, 0.660069),
  (0.447714, 0.002080, 0.660240),
  (0.453677, 0.002755, 0.660310),
  (0.459623, 0.003574, 0.660277),
  (0.465550, 0.004545, 0.660139),
  (0.471457, 0.005678, 0.659897),
  (0.477344, 0.006980, 0.659549),
  (0.483210, 0.008460, 0.659095),
  (0.489055, 0.010127, 0.658534),
  (0.494877, 0.011990, 0.657865),
  (0.500678, 0.014055, 0.657088),
  (0.506454, 0.016333, 0.656202),
  (0.512206, 0.018833, 0.655209),
  (0.517933, 0.021563, 0.654109),
  (0.523633, 0.024532, 0.652901),
  (0.529306, 0.027747, 0.651586),
  (0.534952, 0.031217, 0.650165),
  (0.540570, 0.034950, 0.648640),
  (0.546157, 0.038954, 0.647010),
  (0.551715, 0.043136, 0.645277),
  (0.557243, 0.047331, 0.643443),
  (0.562738, 0.051545, 0.641509),
  (0.568201, 0.055778, 0.639477),
  (0.573632, 0.060028, 0.637349),
  (0.579029, 0.064296, 0.635126),
  (0.584391, 0.068579, 0.632812),
  (0.589719, 0.072878, 0.630408),
  (0.595011, 0.077190, 0.627917),
  (0.600266, 0.081516, 0.625342),
  (0.605485, 0.085854, 0.622686),
  (0.610667, 0.090204, 0.619951),
  (0.615812, 0.094564, 0.617140),
  (0.620919, 0.098934, 0.614257),
  (0.625987, 0.103312, 0.611305),
  (0.631017, 0.107699, 0.608287),
  (0.636008, 0.112092, 0.605205),
  (0.640959, 0.116492, 0.602065),
  (0.645872, 0.120898, 0.598867),
  (0.650746, 0.125309, 0.595617),
  (0.655580, 0.129725, 0.592317),
  (0.660374, 0.134144, 0.588971),
  (0.665129, 0.138566, 0.585582),
  (0.669845, 0.142992, 0.582154),
  (0.674522, 0.147419, 0.578688),
  (0.679160, 0.151848, 0.575189),
  (0.683758, 0.156278, 0.571660)
]

/-- The table interpolation of `voltageToColor`:
`scaledPos = colormapPosition * (plasmaColors.length - 1)`,
`index = Math.floor(scaledPos)`, `t = scaledPos - index`,
`color1 = plasmaColors[Math.min(index, length-1)]`,
`color2 = plasmaColors[Math.min(index+1, length-1)]`, channel-wise
`c1 + t * (c2 - c1)`.  (`toNat` clips a negative index to 0, which is
unreachable: the position is clamped into `[0,1]` before lookup.) -/
def plasmaLookup (p : ℚ) : ℚ × ℚ × ℚ :=
  let scaledPos := p * ((plasmaColors.length : ℚ) - 1)
  let index : ℤ := ⌊scaledPos⌋
  let t := scaledPos - (index : ℚ)
  let c1 := plasmaColors.getD (min index ((plasmaColors.length : ℤ) - 1)).toNat (0, 0, 0)
  let c2 := plasmaColors.getD (min (index + 1) ((plasmaColors.length : ℤ) - 1)).toNat (0, 0, 0)
  (c1.1 + t * (c2.1 - c1.1), c1.2.1 + t * (c2.2.1 - c1.2.1), c1.2.2 + t * (c2.2.2 - c1.2.2))

/-- `voltageToColor` of `src/unnamed/part_001` (default range
`minVoltage = -70`, `maxVoltage = 20`): normalize and clamp, remap into
`[cmap_start, cmap_end]` when a material config is loaded, then
interpolate the plasma table.  `none` models the `TypeError` thrown when a
`NaN` position indexes the table. -/
def voltageToColor (voltage minV maxV : ℚ) (config : Option MaterialConfig) :
    Option (ℚ × ℚ × ℚ) :=
  match normalizedClamped voltage minV maxV with
  | JSVal.num clamped =>
    let colormapPosition :=
      match config with
      | some mc => max 0 (min 1 (mc.cmap_start + (mc.cmap_end - mc.cmap_start) * clamped))
      | none => clamped
    some (plasmaLookup colormapPosition)
  | _ => none

/-- `voltageToColor` of the legacy `src/src/utilities/BlenderModelViewer.js`:
a four-branch piecewise formula over the clamped normalized voltage. -/
def voltageToColorLegacy (voltage minV maxV : ℚ) : Option (ℚ × ℚ × ℚ) :=
  match normalizedClamped voltage minV maxV with
  | JSVal.num clamped =>
    some (
      if clamped < 0.25 then
        (0.05 + clamped * 0.6, 0.05 + clamped * 0.2, 0.3 + clamped * 2.8)
      else if clamped < 0.5 then
        let t := (clamped - 0.25) * 4
        (0.2 + t * 0.6, 0.1, 0.8 + t * 0.2)
      else if clamped < 0.75 then
        let t := (clamped - 0.5) * 4
        (0.8 + t * 0.2, 0.1 + t * 0.7, 0.8 - t * 0.8)
      else
        let t := (clamped - 0.75) * 4
        (1.0, 0.8 + t * 0.2, t * 0.8))
  | _ => none

theorem plasmaColors_length : plasmaColors.length = 101 := rfl

example : plasmaLookup 0 = (0.050383, 0.029803, 0.527975) := by
  norm_num [plasmaLookup, plasmaColors_length, plasmaColors]

example : voltageToColorLegacy (2499/10000) 0 1 =
    some (19994/100000, 9998/100000, 99972/100000) := by
  norm_num [voltageToColorLegacy, normalizedClamped, jsDiv, jsMin, jsMax]


/-- At every cell boundary `k/100` the interpolation returns exactly the
k-th table entry (interpolation weight 0). -/
theorem plasmaLookup_boundary (k : ℕ) (hk : k ≤ 100) :
    plasmaLookup ((k : ℚ) / 100) = plasmaColors.getD k (0, 0, 0) := by
  have hkz : (k : ℤ) ≤ 100 := by exact_mod_cast hk
  have h100 : ((k : ℚ) / 100) * (((101 : ℕ) : ℚ) - 1) = (k : ℚ) := by
    have he : (((101 : ℕ) : ℚ) - 1) = 100 := by norm_num
    rw [he]
    exact div_mul_cancel₀ _ (by norm_num)
  simp only [plasmaLookup, plasmaColors_length, h100]
  have hfloor : ⌊(k : ℚ)⌋ = (k : ℤ) := by
    exact_mod_cast Int.floor_natCast k
  rw [hfloor]
  have hmin1 : min ((k : ℤ)) ((((101 : ℕ) : ℤ)) - 1) = (k : ℤ) := by
    omega
  rw [hmin1]
  have ht : (k : ℚ) - ((k : ℤ) : ℚ) = 0 := by push_cast; ring
  simp [ht, Int.toNat_natCast]


/-- Inside cell `k` (that is, `k ≤ 100p < k+1`) the interpolation is the
affine blend of table entries `k` and `k+1` with weight `100p - k`. -/
theorem plasmaLookup_cell (p : ℚ) (k : ℕ) (hk : k < 100)
    (h1 : (k : ℚ) ≤ p * 100) (h2 : p * 100 < (k : ℚ) + 1) :
    plasmaLookup p =
      (let c1 := plasmaColors.getD k (0, 0, 0)
       let c2 := plasmaColors.getD (k + 1) (0, 0, 0)
       let t := p * 100 - (k : ℚ)
       (c1.1 + t * (c2.1 - c1.1), c1.2.1 + t * (c2.2.1 - c1.2.1),
        c1.2.2 + t * (c2.2.2 - c1.2.2))) := by
  have h100 : p * (((101 : ℕ) : ℚ) - 1) = p * 100 := by
    norm_num
  simp only [plasmaLookup, plasmaColors_length, h100]
  have hfloor : ⌊p * 100⌋ = (k : ℤ) := by
    rw [Int.floor_eq_iff]
    constructor
    · exact_mod_cast h1
    · push_cast
      exact_mod_cast h2
  rw [hfloor]
  have hmin1 : min ((k : ℤ)) ((((101 : ℕ) : ℤ)) - 1) = (k : ℤ) := by
    omega
  have hmin2 : min ((k : ℤ) + 1) ((((101 : ℕ) : ℤ)) - 1) = (k : ℤ) + 1 := by
    omega
  rw [hmin1, hmin2]
  have htn : ((k : ℤ) + 1).toNat = k + 1 := by omega
  rw [htn, Int.toNat_natCast]
  push_cast
  rfl


/-- C7 counterexample.  The legacy piecewise `voltageToColor` is NOT
continuous: with range `[0,1]`, stepping the voltage from `0.2499` to
`0.2501` (a step of `1/5000`) makes the blue channel drop from `0.99972`
to `0.80008` — a jump of more than `0.19` that no fine stepping removes,
and `0.25` is not a colormap-table boundary of that variant (it has no
table). -/
theorem legacy_color_jump_at_quarter :
    voltageToColorLegacy (2499/10000) 0 1 =
      some (19994/100000, 9998/100000, 99972/100000) ∧
    voltageToColorLegacy (2501/10000) 0 1 =
      some (20024/100000, 1/10, 80008/100000) ∧
    (2501/10000 : ℚ) - 2499/10000 = 1/5000 ∧
    (99972/100000 : ℚ) - 80008/100000 ≥ 19/100 := by
  refine ⟨?_, ?_, by norm_num, by norm_num⟩ <;>
    norm_num [voltageToColorLegacy, normalizedClamped, jsDiv, jsMin, jsMax]

/-- C7 amended.  `colorFor` is deterministic (a pure function of its
arguments) and, in the plasma-table variant (part_001), continuous in the
colormap position: the lookup is piecewise affine on the 100 table cells
(`plasmaLookup_cell`) and attains exactly the shared table entry at every
cell boundary (`plasmaLookup_boundary`), so adjacent pieces agree where
they meet and fine voltage steps change each channel by an amount
proportional to the step.  Moreover for every non-degenerate range the
conversion produces a colour (no NaN path).  The legacy piecewise-formula
variant does NOT satisfy the claim (see the counterexample). -/
theorem color_total_and_piecewise_linear :
    (∀ (v minV maxV : ℚ) (config : Option MaterialConfig), minV < maxV →
      (voltageToColor v minV maxV config).isSome = true) ∧
    (∀ k : ℕ, k ≤ 100 →
      plasmaLookup ((k : ℚ) / 100) = plasmaColors.getD k (0, 0, 0)) ∧
    (∀ (p : ℚ) (k : ℕ), k < 100 → (k : ℚ) ≤ p * 100 → p * 100 < (k : ℚ) + 1 →
      plasmaLookup p =
        (let c1 := plasmaColors.getD k (0, 0, 0)
         let c2 := plasmaColors.getD (k + 1) (0, 0, 0)
         let t := p * 100 - (k : ℚ)
         (c1.1 + t * (c2.1 - c1.1), c1.2.1 + t * (c2.2.1 - c1.2.1),
          c1.2.2 + t * (c2.2.2 - c1.2.2)))) := by
  refine ⟨?_, plasmaLookup_boundary, plasmaLookup_cell⟩
  intro v minV maxV config h
  have hne : maxV - minV ≠ 0 := sub_ne_zero.mpr (ne_of_gt h)
  unfold voltageToColor normalizedClamped jsDiv
  rw [if_neg hne]
  simp [jsMin, jsMax]

/-- C7 amended, witness: a colour is produced on the default range; the
boundary identity at `k = 50`; the cell formula at `p = 1/200` in cell 0. -/
theorem color_total_and_piecewise_linear_witness :
    (voltageToColor 0 (-70) 20 none).isSome = true ∧
    plasmaLookup (((50 : ℕ) : ℚ) / 100) = plasmaColors.getD 50 (0, 0, 0) ∧
    plasmaLookup (1/200) =
      (let c1 := plasmaColors.getD 0 (0, 0, 0)
       let c2 := plasmaColors.getD (0 + 1) (0, 0, 0)
       let t := (1/200 : ℚ) * 100 - ((0 : ℕ) : ℚ)
       (c1.1 + t * (c2.1 - c1.1), c1.2.1 + t * (c2.2.1 - c1.2.1),
        c1.2.2 + t * (c2.2.2 - c1.2.2))) :=
  ⟨color_total_and_piecewise_linear.1 0 (-70) 20 none (by norm_num),
   color_total_and_piecewise_linear.2.1 50 (by norm_num),
   color_total_and_piecewise_linear.2.2 (1/200) 0 (by norm_num) (by norm_num) (by norm_num)⟩

end BMV
